import Mathlib

/-!
Verification of the single-file todo web application (`src/app.py`).

The application is a small Flask app manipulating an in-memory list of
`Todo` dataclass records, persisted as a JSON file.  The pure list
operations of each request handler are embedded below as Lean functions;
the surrounding HTTP/file I/O is abstracted (file existence and JSON
parsing become explicit parameters).
-/

/-- The `Todo` dataclass of `app.py`:
`id: int`, `text: str`, `completed: bool = False`,
`created_at: str = datetime.utcnow().isoformat()`, `deleted_at: str | None = None`.

Note: in Python the `created_at` default expression is evaluated once, at
class-definition (module import) time, not per construction; this module-level
constant is threaded through as an explicit `moduleInitTime` parameter where a
record is constructed with the default. -/
structure Todo where
  id : Int
  text : String
  completed : Bool
  created_at : String
  deleted_at : Option String
deriving Repr, DecidableEq

/-- `get_next_id(todos)`: `max((t.id for t in todos), default=0) + 1`.
Python's `max(..., default=0)` returns 0 on an empty iterable and the true
maximum otherwise; `List.max?.getD 0` has exactly those semantics. -/
def get_next_id (todos : List Todo) : Int :=
  ((todos.map (·.id)).max?.getD 0) + 1

/-- Python's `str.strip()` with no argument: remove leading and trailing
whitespace characters. -/
def strip (s : String) : String :=
  String.mk ((((s.data.dropWhile Char.isWhitespace).reverse).dropWhile
    Char.isWhitespace).reverse)

/-- The `add` handler body (pure part): `text = (request.form.get("text") or "").strip()`;
`if text:` (string truthiness, i.e. non-empty) prepend
`Todo(id=get_next_id(todos), text=text)` — the remaining fields take their
dataclass defaults, in particular `created_at` is the module-level constant
`moduleInitTime` (see `Todo`). -/
def add (moduleInitTime : String) (todos : List Todo) (rawText : String) : List Todo :=
  let text := strip rawText
  if text = "" then todos
  else { id := get_next_id todos, text := text, completed := false,
         created_at := moduleInitTime, deleted_at := none } :: todos

/-- The `toggle` handler body: scan for the first record with the given id and
`deleted_at is None`, flip its `completed`, and stop (`break`). -/
def toggle : List Todo → Int → List Todo
  | [], _ => []
  | t :: ts, todo_id =>
    if t.id = todo_id ∧ t.deleted_at = none then
      { t with completed := !t.completed } :: ts
    else
      t :: toggle ts todo_id

/-- The `delete` handler body (soft delete): scan for the first record with the
given id and `deleted_at is None`, set `deleted_at = datetime.utcnow().isoformat()`
(the call-time instant, passed as `now`), and stop. -/
def delete (now : String) : List Todo → Int → List Todo
  | [], _ => []
  | t :: ts, todo_id =>
    if t.id = todo_id ∧ t.deleted_at = none then
      { t with deleted_at := some now } :: ts
    else
      t :: delete now ts todo_id

/-- The `restore` handler body: scan for the first record with the given id and
`deleted_at is not None`, clear `deleted_at`, and stop. -/
def restore : List Todo → Int → List Todo
  | [], _ => []
  | t :: ts, todo_id =>
    if t.id = todo_id ∧ t.deleted_at ≠ none then
      { t with deleted_at := none } :: ts
    else
      t :: restore ts todo_id

/-- The common shape of the three scan-and-break loops (`toggle`, `delete`,
`restore`): rewrite the first element satisfying `p` by `f` and leave
everything else untouched. -/
def updateFirst (p : Todo → Prop) [DecidablePred p] (f : Todo → Todo) :
    List Todo → List Todo
  | [] => []
  | t :: ts => if p t then f t :: ts else t :: updateFirst p f ts

/-- The `clear_completed` handler body:
`[t for t in todos if not t.completed or t.deleted_at is not None]`. -/
def clear_completed (todos : List Todo) : List Todo :=
  todos.filter (fun t => !t.completed || t.deleted_at != none)

/-- The `clear_deleted` handler body:
`[t for t in load_todos() if t.deleted_at is None]`. -/
def clear_deleted (todos : List Todo) : List Todo :=
  todos.filter (fun t => t.deleted_at == none)

/-- The filtering logic of the `index` handler (lines 62–73): the three derived
lists `active`, `completed`, `deleted`, selected by `current_filter`, with every
other filter value (including `"all"`, the default) falling through to the
`else` branch `[t for t in todos if t.deleted_at is None]`. -/
def filter_view (todos : List Todo) (current_filter : String) : List Todo :=
  let active := todos.filter (fun t => !t.completed && t.deleted_at == none)
  let completed := todos.filter (fun t => t.completed && t.deleted_at == none)
  let deleted := todos.filter (fun t => t.deleted_at != none)
  if current_filter = "active" then active
  else if current_filter = "completed" then completed
  else if current_filter = "deleted" then deleted
  else todos.filter (fun t => t.deleted_at == none)

/-- The four counts rendered by the `index` handler (lines 85–90). -/
structure Counts where
  active : Nat
  completed : Nat
  deleted : Nat
  all : Nat
deriving Repr, DecidableEq

/-- `counts = {"active": len(active), "completed": len(completed),
"deleted": len(deleted), "all": len([t for t in todos if t.deleted_at is None])}`. -/
def compute_counts (todos : List Todo) : Counts :=
  { active := (todos.filter (fun t => !t.completed && t.deleted_at == none)).length
    completed := (todos.filter (fun t => t.completed && t.deleted_at == none)).length
    deleted := (todos.filter (fun t => t.deleted_at != none)).length
    all := (todos.filter (fun t => t.deleted_at == none)).length }

/-- `load_todos()`: the persisted file abstracted as `Option String` (`none` =
`DATA_FILE` does not exist) and the fallible body of the `try` block —
`json.loads` plus `[Todo(**item) for item in data]` — abstracted as
`parse : String → Option (List Todo)` (`none` = some exception was raised,
caught by `except Exception: return []`). -/
def load_todos (file : Option String) (parse : String → Option (List Todo)) :
    List Todo :=
  match file with
  | none => []
  | some s => (parse s).getD []

/-- `_format_timestamp(iso_str)`: Python's `if not iso_str` is true both for
`None` and for the empty string.  `datetime.fromisoformat` is abstracted as
`fromiso : String → Option δ` (`none` = `ValueError`, caught) and
`strftime("%d/%m %H:%M")` as `strftime : δ → String`. -/
def format_timestamp {δ : Type} (fromiso : String → Option δ)
    (strftime : δ → String) : Option String → Option String
  | none => none
  | some s =>
    if s = "" then none
    else
      match fromiso s with
      | some d => some (strftime d)
      | none => some s

/-! ### Helper lemmas -/

lemma exists_max_of_ne_nil (l : List Int) (h : l ≠ []) :
    ∃ m, l.max? = some m ∧ m ∈ l ∧ ∀ x ∈ l, x ≤ m := by
  cases hm : l.max? with
  | none => exact absurd (List.max?_eq_none_iff.mp hm) h
  | some m =>
    refine ⟨m, rfl, List.max?_mem max_choice hm, ?_⟩
    intro x hx
    exact (List.max?_le_iff (fun a b c => max_le_iff) hm).mp le_rfl x hx

lemma get_next_id_empty : get_next_id [] = 1 := rfl

lemma get_next_id_max (todos : List Todo) (h : todos ≠ []) :
    ∃ m, m ∈ todos.map (·.id) ∧ (∀ x ∈ todos.map (·.id), x ≤ m) ∧
      get_next_id todos = m + 1 := by
  obtain ⟨m, hm, hmem, hle⟩ :=
    exists_max_of_ne_nil (todos.map (·.id)) (by simpa using h)
  exact ⟨m, hmem, hle, by simp [get_next_id, hm]⟩

lemma add_eq (mit : String) (todos : List Todo) (rawText : String) :
    add mit todos rawText =
      if strip rawText = "" then todos
      else { id := get_next_id todos, text := strip rawText, completed := false,
             created_at := mit, deleted_at := none } :: todos := rfl

lemma add_head_id (mit rawText : String) (l : List Todo) (ht : strip rawText ≠ "") :
    (l = [] → (add mit l rawText).head?.map Todo.id = some 1) ∧
    (l ≠ [] → ∃ m, m ∈ l.map (·.id) ∧ (∀ x ∈ l.map (·.id), x ≤ m) ∧
      (add mit l rawText).head?.map Todo.id = some (m + 1)) := by
  constructor
  · intro he
    subst he
    simp [add_eq, ht, get_next_id_empty]
  · intro hne
    obtain ⟨m, hmem, hle, hid⟩ := get_next_id_max l hne
    exact ⟨m, hmem, hle, by simp [add_eq, ht, hid]⟩

/-! ### C3: behaviour of `add` -/

/-- C3: if the stripped text is empty, `add` returns the collection unchanged;
otherwise it prepends a new `Todo` with `completed = false`,
`deleted_at = none` and id `get_next_id todos`, which is one more than the
maximum id present (1 on an empty collection), preserving all existing
records. -/
theorem add_spec (mit : String) (todos : List Todo) (rawText : String) :
    (strip rawText = "" → add mit todos rawText = todos) ∧
    (strip rawText ≠ "" →
      add mit todos rawText =
        { id := get_next_id todos, text := strip rawText, completed := false,
          created_at := mit, deleted_at := none } :: todos ∧
      (todos = [] → get_next_id todos = 1) ∧
      (todos ≠ [] → ∃ m, m ∈ todos.map (·.id) ∧
        (∀ x ∈ todos.map (·.id), x ≤ m) ∧ get_next_id todos = m + 1)) := by
  refine ⟨fun h => by simp [add_eq, h], fun h => ⟨by simp [add_eq, h], ?_, ?_⟩⟩
  · intro he
    subst he
    exact get_next_id_empty
  · exact get_next_id_max todos

/-- Witness for `add_spec` at a concrete input. -/
theorem add_spec_witness :
    strip " x " ≠ "" ∧
    add "T" [⟨3, "a", false, "T", none⟩] " x " =
      [⟨4, "x", false, "T", none⟩, ⟨3, "a", false, "T", none⟩] := by
  refine ⟨by decide, ?_⟩
  have h := ((add_spec "T" [⟨3, "a", false, "T", none⟩] " x ").2 (by decide)).1
  rw [h]
  decide

/-! ### C1: id assignment after a purge -/

/-- C1 is false on the code: over ids {3, 7, 2} with the record of id 7
active-completed, `clear_completed` purges id 7 and the subsequent `add`
assigns id 4, not an id strictly greater than the purged maximum 7; three
further adds even reassign id 7. -/
theorem purge_id_reuse_cex :
    clear_completed
        [⟨3, "a", false, "T", none⟩, ⟨7, "b", true, "T", none⟩,
         ⟨2, "c", false, "T", none⟩] =
      [⟨3, "a", false, "T", none⟩, ⟨2, "c", false, "T", none⟩] ∧
    (add "T" [⟨3, "a", false, "T", none⟩, ⟨2, "c", false, "T", none⟩]
      "x").head?.map Todo.id = some 4 ∧
    ¬ ((4 : Int) > 7) ∧
    (add "T" (add "T" (add "T" (add "T"
        [⟨3, "a", false, "T", none⟩, ⟨2, "c", false, "T", none⟩]
      "w") "x") "y") "z").head?.map Todo.id = some 7 := by
  decide

/-- C1 (amended): after `clear_completed` or `clear_deleted`, a subsequent
`add` assigns one more than the maximum id remaining after the purge (1 if the
purge left the collection empty) — so an id larger than the remaining maximum,
including a just-purged one, can be reassigned. -/
theorem purge_then_add_id (mit rawText : String) (todos : List Todo)
    (ht : strip rawText ≠ "") :
    ((clear_completed todos = [] →
        (add mit (clear_completed todos) rawText).head?.map Todo.id = some 1) ∧
     (clear_completed todos ≠ [] →
        ∃ m, m ∈ (clear_completed todos).map (·.id) ∧
          (∀ x ∈ (clear_completed todos).map (·.id), x ≤ m) ∧
          (add mit (clear_completed todos) rawText).head?.map Todo.id =
            some (m + 1))) ∧
    ((clear_deleted todos = [] →
        (add mit (clear_deleted todos) rawText).head?.map Todo.id = some 1) ∧
     (clear_deleted todos ≠ [] →
        ∃ m, m ∈ (clear_deleted todos).map (·.id) ∧
          (∀ x ∈ (clear_deleted todos).map (·.id), x ≤ m) ∧
          (add mit (clear_deleted todos) rawText).head?.map Todo.id =
            some (m + 1))) :=
  ⟨add_head_id mit rawText (clear_completed todos) ht,
   add_head_id mit rawText (clear_deleted todos) ht⟩

/-- Witness for `purge_then_add_id` at the spec's {3, 7, 2} example. -/
theorem purge_then_add_id_witness :
    strip "x" ≠ "" ∧
    clear_completed
        [⟨3, "a", false, "T", none⟩, ⟨7, "b", true, "T", none⟩,
         ⟨2, "c", false, "T", none⟩] ≠ [] ∧
    ∃ m, m ∈ (clear_completed
        [⟨3, "a", false, "T", none⟩, ⟨7, "b", true, "T", none⟩,
         ⟨2, "c", false, "T", none⟩]).map (·.id) ∧
      (∀ x ∈ (clear_completed
        [⟨3, "a", false, "T", none⟩, ⟨7, "b", true, "T", none⟩,
         ⟨2, "c", false, "T", none⟩]).map (·.id), x ≤ m) ∧
      (add "T" (clear_completed
        [⟨3, "a", false, "T", none⟩, ⟨7, "b", true, "T", none⟩,
         ⟨2, "c", false, "T", none⟩]) "x").head?.map Todo.id = some (m + 1) :=
  ⟨by decide, by decide,
   ((purge_then_add_id "T" "x"
      [⟨3, "a", false, "T", none⟩, ⟨7, "b", true, "T", none⟩,
       ⟨2, "c", false, "T", none⟩] (by decide)).1).2 (by decide)⟩

/-! ### C2: `created_at` is a module-level constant -/

/-- C2 (code bug): the `created_at` dataclass default is computed once at
module import; every record constructed by `add` carries that same constant,
so two records created by successive `add` calls (at different wall-clock
times) have identical `created_at` values. -/
theorem add_created_at_module_constant (mit : String) (todos : List Todo)
    (txt1 txt2 : String) (h1 : strip txt1 ≠ "") (h2 : strip txt2 ≠ "") :
    ∃ r2 r1 rest, add mit (add mit todos txt1) txt2 = r2 :: r1 :: rest ∧
      r2.created_at = mit ∧ r1.created_at = mit ∧
      r2.created_at = r1.created_at := by
  have e1 : add mit todos txt1 =
      { id := get_next_id todos, text := strip txt1, completed := false,
        created_at := mit, deleted_at := none } :: todos := by
    rw [add_eq, if_neg h1]
  have e2 : add mit (add mit todos txt1) txt2 =
      { id := get_next_id (add mit todos txt1), text := strip txt2,
        completed := false, created_at := mit, deleted_at := none } ::
        add mit todos txt1 := by
    rw [add_eq mit (add mit todos txt1) txt2, if_neg h2]
  refine ⟨{ id := get_next_id (add mit todos txt1), text := strip txt2,
            completed := false, created_at := mit, deleted_at := none },
          { id := get_next_id todos, text := strip txt1, completed := false,
            created_at := mit, deleted_at := none },
          todos, ?_, rfl, rfl, rfl⟩
  rw [e2, e1]

/-- Witness for `add_created_at_module_constant` at a concrete input. -/
theorem add_created_at_module_constant_witness :
    strip "a" ≠ "" ∧ strip "b" ≠ "" ∧
    ∃ r2 r1 rest, add "T" (add "T" [] "a") "b" = r2 :: r1 :: rest ∧
      r2.created_at = "T" ∧ r1.created_at = "T" ∧
      r2.created_at = r1.created_at :=
  ⟨by decide, by decide,
   add_created_at_module_constant "T" [] "a" "b" (by decide) (by decide)⟩

/-! ### C4: load tolerates missing or unparsable storage -/

/-- C4: `load_todos` returns the empty collection (not an error) when the data
file does not exist, and returns the empty collection whenever reading the
stored content raises (the `except Exception: return []` branch) — parse
failures are swallowed, never surfaced. -/
theorem load_todos_spec (parse : String → Option (List Todo)) (s : String)
    (h : parse s = none) :
    load_todos none parse = [] ∧ load_todos (some s) parse = [] :=
  ⟨rfl, by simp [load_todos, h]⟩

/-- Witness for `load_todos_spec` at a concrete parse failure. -/
theorem load_todos_spec_witness :
    (fun _ : String => (none : Option (List Todo))) "garbage" = none ∧
    (load_todos none (fun _ => none) = [] ∧
     load_todos (some "garbage") (fun _ => none) = []) :=
  ⟨rfl, load_todos_spec (fun _ => none) "garbage" rfl⟩

/-! ### C5: silent no-op cases of toggle, delete and restore -/

lemma toggle_noop (todos : List Todo) (i : Int)
    (h : ∀ t ∈ todos, ¬(t.id = i ∧ t.deleted_at = none)) :
    toggle todos i = todos := by
  induction todos with
  | nil => rfl
  | cons t ts ih =>
    rw [toggle, if_neg (h t (List.mem_cons_self t ts)),
        ih (fun u hu => h u (List.mem_cons_of_mem t hu))]

lemma delete_noop (now : String) (todos : List Todo) (i : Int)
    (h : ∀ t ∈ todos, ¬(t.id = i ∧ t.deleted_at = none)) :
    delete now todos i = todos := by
  induction todos with
  | nil => rfl
  | cons t ts ih =>
    rw [delete, if_neg (h t (List.mem_cons_self t ts)),
        ih (fun u hu => h u (List.mem_cons_of_mem t hu))]

lemma restore_noop (todos : List Todo) (i : Int)
    (h : ∀ t ∈ todos, ¬(t.id = i ∧ t.deleted_at ≠ none)) :
    restore todos i = todos := by
  induction todos with
  | nil => rfl
  | cons t ts ih =>
    rw [restore, if_neg (h t (List.mem_cons_self t ts)),
        ih (fun u hu => h u (List.mem_cons_of_mem t hu))]

/-- C5: when no active record carries the given id (the record is absent, or
every record with that id is soft-deleted), `toggle` and `delete` leave the
sequence entirely unchanged; when no deleted record carries the given id (the
record is absent, or already active), `restore` leaves the sequence entirely
unchanged.  These no-op cases are silent, not errors. -/
theorem noop_cases (now : String) (todos : List Todo) (i : Int) :
    ((∀ t ∈ todos, ¬(t.id = i ∧ t.deleted_at = none)) →
      toggle todos i = todos ∧ delete now todos i = todos) ∧
    ((∀ t ∈ todos, ¬(t.id = i ∧ t.deleted_at ≠ none)) →
      restore todos i = todos) :=
  ⟨fun h => ⟨toggle_noop todos i h, delete_noop now todos i h⟩,
   fun h => restore_noop todos i h⟩

/-- Witness for `noop_cases`: id 5 is absent from the collection. -/
theorem noop_cases_witness :
    (toggle [⟨1, "a", false, "T", none⟩] 5 = [⟨1, "a", false, "T", none⟩] ∧
     delete "D" [⟨1, "a", false, "T", none⟩] 5 = [⟨1, "a", false, "T", none⟩]) ∧
    restore [⟨1, "a", false, "T", none⟩] 5 = [⟨1, "a", false, "T", none⟩] :=
  ⟨(noop_cases "D" [⟨1, "a", false, "T", none⟩] 5).1 (by decide),
   (noop_cases "D" [⟨1, "a", false, "T", none⟩] 5).2 (by decide)⟩

/-! ### C6: the two purge operations remove exactly their predicates -/

/-- C6: `clear_completed` removes exactly the records that are completed and
not soft-deleted (soft-deleted records are kept even when completed, active
incomplete records are kept), and `clear_deleted` removes exactly the records
with `deleted_at` set; both preserve the relative order of survivors. -/
theorem purge_exact (todos : List Todo) (t : Todo) :
    clear_completed todos =
      todos.filter (fun u => decide ¬(u.completed = true ∧ u.deleted_at = none)) ∧
    (t ∈ clear_completed todos ↔
      t ∈ todos ∧ ¬(t.completed = true ∧ t.deleted_at = none)) ∧
    (clear_completed todos).Sublist todos ∧
    clear_deleted todos = todos.filter (fun u => decide (u.deleted_at = none)) ∧
    (t ∈ clear_deleted todos ↔ t ∈ todos ∧ t.deleted_at = none) ∧
    (clear_deleted todos).Sublist todos := by
  have h1 : ∀ u : Todo,
      (!u.completed || u.deleted_at != none) =
        decide ¬(u.completed = true ∧ u.deleted_at = none) := by
    intro u
    cases hc : u.completed <;> cases hd : u.deleted_at <;> simp [hc, hd]
  have h2 : ∀ u : Todo,
      (u.deleted_at == none) = decide (u.deleted_at = none) := by
    intro u
    cases hd : u.deleted_at <;> simp [hd]
  refine ⟨List.filter_congr (fun u _ => h1 u), ?_, List.filter_sublist todos,
          List.filter_congr (fun u _ => h2 u), ?_, List.filter_sublist todos⟩
  · rw [clear_completed, List.mem_filter]
    constructor
    · rintro ⟨hmem, hb⟩
      rw [h1 t] at hb
      exact ⟨hmem, of_decide_eq_true hb⟩
    · rintro ⟨hmem, hb⟩
      exact ⟨hmem, by rw [h1 t]; exact decide_eq_true hb⟩
  · rw [clear_deleted, List.mem_filter]
    constructor
    · rintro ⟨hmem, hb⟩
      rw [h2 t] at hb
      exact ⟨hmem, of_decide_eq_true hb⟩
    · rintro ⟨hmem, hb⟩
      exact ⟨hmem, by rw [h2 t]; exact decide_eq_true hb⟩

/-- Witness for `purge_exact`: a soft-deleted completed record survives
`clear_completed`. -/
theorem purge_exact_witness :
    (⟨2, "b", true, "T", some "D"⟩ : Todo) ∈ clear_completed
      [⟨1, "a", true, "T", none⟩, ⟨2, "b", true, "T", some "D"⟩,
       ⟨3, "c", false, "T", none⟩] :=
  ((purge_exact
      [⟨1, "a", true, "T", none⟩, ⟨2, "b", true, "T", some "D"⟩,
       ⟨3, "c", false, "T", none⟩]
      ⟨2, "b", true, "T", some "D"⟩).2.1).mpr ⟨by decide, by decide⟩

/-! ### C7: the view predicates of the index handler -/

lemma filter_view_active (todos : List Todo) :
    filter_view todos "active" =
      todos.filter (fun t => !t.completed && t.deleted_at == none) := by
  rw [filter_view, if_pos rfl]

lemma filter_view_completed (todos : List Todo) :
    filter_view todos "completed" =
      todos.filter (fun t => t.completed && t.deleted_at == none) := by
  rw [filter_view, if_neg (by decide), if_pos rfl]

lemma filter_view_deleted (todos : List Todo) :
    filter_view todos "deleted" =
      todos.filter (fun t => t.deleted_at != none) := by
  rw [filter_view, if_neg (by decide), if_neg (by decide), if_pos rfl]

lemma filter_view_other (todos : List Todo) (v : String)
    (h1 : v ≠ "active") (h2 : v ≠ "completed") (h3 : v ≠ "deleted") :
    filter_view todos v = todos.filter (fun t => t.deleted_at == none) := by
  rw [filter_view, if_neg h1, if_neg h2, if_neg h3]

/-- C7: `filter_view` selects by exactly these predicates — `"active"`: not
completed and not deleted; `"completed"`: completed and not deleted;
`"deleted"`: `deleted_at` set regardless of `completed`; `"all"` and every
unrecognized view name: `deleted_at` null (silent fallback, no error). -/
theorem filter_view_spec (todos : List Todo) (v : String) (t : Todo) :
    (t ∈ filter_view todos "active" ↔
      t ∈ todos ∧ t.completed = false ∧ t.deleted_at = none) ∧
    (t ∈ filter_view todos "completed" ↔
      t ∈ todos ∧ t.completed = true ∧ t.deleted_at = none) ∧
    (t ∈ filter_view todos "deleted" ↔ t ∈ todos ∧ t.deleted_at ≠ none) ∧
    (t ∈ filter_view todos "all" ↔ t ∈ todos ∧ t.deleted_at = none) ∧
    (v ≠ "active" → v ≠ "completed" → v ≠ "deleted" →
      filter_view todos v = filter_view todos "all") := by
  refine ⟨?_, ?_, ?_, ?_, ?_⟩
  · rw [filter_view_active, List.mem_filter]
    cases hc : t.completed <;> cases hd : t.deleted_at <;> simp [hc, hd]
  · rw [filter_view_completed, List.mem_filter]
    cases hc : t.completed <;> cases hd : t.deleted_at <;> simp [hc, hd]
  · rw [filter_view_deleted, List.mem_filter]
    cases hd : t.deleted_at <;> simp [hd]
  · rw [filter_view_other todos "all" (by decide) (by decide) (by decide),
        List.mem_filter]
    cases hd : t.deleted_at <;> simp [hd]
  · intro h1 h2 h3
    rw [filter_view_other todos v h1 h2 h3,
        filter_view_other todos "all" (by decide) (by decide) (by decide)]

/-- Witness for `filter_view_spec`: an unrecognized view name falls back to
the `"all"` semantics, and a completed record is in the completed view. -/
theorem filter_view_spec_witness :
    filter_view [⟨1, "a", true, "T", none⟩] "bogus" =
      filter_view [⟨1, "a", true, "T", none⟩] "all" ∧
    (⟨1, "a", true, "T", none⟩ : Todo) ∈
      filter_view [⟨1, "a", true, "T", none⟩] "completed" :=
  ⟨(filter_view_spec [⟨1, "a", true, "T", none⟩] "bogus"
      ⟨1, "a", true, "T", none⟩).2.2.2.2 (by decide) (by decide) (by decide),
   ((filter_view_spec [⟨1, "a", true, "T", none⟩] "bogus"
      ⟨1, "a", true, "T", none⟩).2.1).mpr ⟨by decide, by decide, by decide⟩⟩

/-! ### C8: partition of the views and the counts identity -/

lemma filter_length_sum (todos : List Todo) :
    (todos.filter (fun t => !t.completed && t.deleted_at == none)).length +
      (todos.filter (fun t => t.completed && t.deleted_at == none)).length =
      (todos.filter (fun t => t.deleted_at == none)).length := by
  induction todos with
  | nil => rfl
  | cons t ts ih =>
    obtain ⟨i, tx, c, ca, da⟩ := t
    cases c <;> cases da <;> simp [List.filter_cons, ih] <;> omega

/-- C8: every view is a sublist of the input; the active, completed and
deleted views are pairwise disjoint; the `"all"` view is exactly the union of
the active and completed views (deleted excluded); and the active count plus
the completed count equals the `"all"` count of `compute_counts`. -/
theorem view_partition (todos : List Todo) (v : String) (t : Todo) :
    (filter_view todos v).Sublist todos ∧
    (filter_view todos "active" ∩ filter_view todos "completed" = [] ∧
     filter_view todos "active" ∩ filter_view todos "deleted" = [] ∧
     filter_view todos "completed" ∩ filter_view todos "deleted" = []) ∧
    (t ∈ filter_view todos "all" ↔
      t ∈ filter_view todos "active" ∨ t ∈ filter_view todos "completed") ∧
    (compute_counts todos).active + (compute_counts todos).completed =
      (compute_counts todos).all := by
  refine ⟨?_, ⟨?_, ?_, ?_⟩, ?_, ?_⟩
  · rw [filter_view]
    split
    · exact List.filter_sublist todos
    · split
      · exact List.filter_sublist todos
      · split
        · exact List.filter_sublist todos
        · exact List.filter_sublist todos
  · rw [List.inter_eq_nil_iff_disjoint]
    intro u hu hv
    rw [filter_view_active, List.mem_filter] at hu
    rw [filter_view_completed, List.mem_filter] at hv
    rcases hu with ⟨-, hu⟩
    rcases hv with ⟨-, hv⟩
    cases hc : u.completed <;> rw [hc] at hu hv <;> simp_all
  · rw [List.inter_eq_nil_iff_disjoint]
    intro u hu hv
    rw [filter_view_active, List.mem_filter] at hu
    rw [filter_view_deleted, List.mem_filter] at hv
    rcases hu with ⟨-, hu⟩
    rcases hv with ⟨-, hv⟩
    cases hd : u.deleted_at <;> rw [hd] at hu hv <;> simp_all
  · rw [List.inter_eq_nil_iff_disjoint]
    intro u hu hv
    rw [filter_view_completed, List.mem_filter] at hu
    rw [filter_view_deleted, List.mem_filter] at hv
    rcases hu with ⟨-, hu⟩
    rcases hv with ⟨-, hv⟩
    cases hd : u.deleted_at <;> rw [hd] at hu hv <;> simp_all
  · rw [filter_view_active, filter_view_completed,
        filter_view_other todos "all" (by decide) (by decide) (by decide),
        List.mem_filter, List.mem_filter, List.mem_filter]
    cases hc : t.completed <;> cases hd : t.deleted_at <;> simp [hc, hd]
  · simpa [compute_counts] using filter_length_sum todos

/-- Witness for `view_partition`: concrete counts over a three-state
collection, and the deleted view as a sublist. -/
theorem view_partition_witness :
    compute_counts
        [⟨1, "a", false, "T", none⟩, ⟨2, "b", true, "T", none⟩,
         ⟨3, "c", true, "T", some "D"⟩] =
      { active := 1, completed := 1, deleted := 1, all := 2 } ∧
    (compute_counts
        [⟨1, "a", false, "T", none⟩, ⟨2, "b", true, "T", none⟩,
         ⟨3, "c", true, "T", some "D"⟩]).active +
      (compute_counts
        [⟨1, "a", false, "T", none⟩, ⟨2, "b", true, "T", none⟩,
         ⟨3, "c", true, "T", some "D"⟩]).completed =
      (compute_counts
        [⟨1, "a", false, "T", none⟩, ⟨2, "b", true, "T", none⟩,
         ⟨3, "c", true, "T", some "D"⟩]).all :=
  ⟨by decide,
   (view_partition
      [⟨1, "a", false, "T", none⟩, ⟨2, "b", true, "T", none⟩,
       ⟨3, "c", true, "T", some "D"⟩] "deleted"
      ⟨1, "a", false, "T", none⟩).2.2.2⟩

/-! ### C9: `_format_timestamp` -/

/-- C9 is false on the code at the empty string: Python's `not iso_str` test
is true for `""` as well as for `None`, so the unparseable non-null input
`""` yields `none` instead of being passed through verbatim. -/
theorem format_timestamp_empty_cex :
    (fun _ : String => (none : Option Unit)) "" = none ∧
    format_timestamp (fun _ : String => (none : Option Unit)) (fun _ => "?")
        (some "") = none ∧
    format_timestamp (fun _ : String => (none : Option Unit)) (fun _ => "?")
        (some "") ≠ some "" :=
  ⟨rfl, by simp [format_timestamp], by simp [format_timestamp]⟩

/-- C9 (amended): `format_timestamp` returns `none` both for `none` and for
the empty string; for a parseable non-empty timestamp it returns the
`strftime`-formatted display; every unparseable non-empty input is returned
verbatim rather than erroring. -/
theorem format_timestamp_spec {δ : Type} (fromiso : String → Option δ)
    (strftime : δ → String) (s1 s2 : String) (d : δ)
    (h1e : s1 ≠ "") (h1p : fromiso s1 = some d)
    (h2e : s2 ≠ "") (h2p : fromiso s2 = none) :
    format_timestamp fromiso strftime none = none ∧
    format_timestamp fromiso strftime (some "") = none ∧
    format_timestamp fromiso strftime (some s1) = some (strftime d) ∧
    format_timestamp fromiso strftime (some s2) = some s2 := by
  refine ⟨rfl, by simp [format_timestamp], ?_, ?_⟩
  · simp [format_timestamp, h1e, h1p]
  · simp [format_timestamp, h2e, h2p]

/-- Witness for `format_timestamp_spec` with a one-entry parse table. -/
theorem format_timestamp_spec_witness :
    ("2024-01-02T03:04:05" ≠ "" ∧ "not a date" ≠ "") ∧
    (format_timestamp
        (fun s => if s = "2024-01-02T03:04:05" then some () else none)
        (fun _ => "02/01 03:04") none = none ∧
     format_timestamp
        (fun s => if s = "2024-01-02T03:04:05" then some () else none)
        (fun _ => "02/01 03:04") (some "") = none ∧
     format_timestamp
        (fun s => if s = "2024-01-02T03:04:05" then some () else none)
        (fun _ => "02/01 03:04") (some "2024-01-02T03:04:05") =
       some "02/01 03:04" ∧
     format_timestamp
        (fun s => if s = "2024-01-02T03:04:05" then some () else none)
        (fun _ => "02/01 03:04") (some "not a date") = some "not a date") :=
  ⟨⟨by decide, by decide⟩,
   format_timestamp_spec
     (fun s => if s = "2024-01-02T03:04:05" then some () else none)
     (fun _ => "02/01 03:04") "2024-01-02T03:04:05" "not a date" ()
     (by decide) (by decide) (by decide) (by decide)⟩

/-! ### C10: each mutating operation touches at most the first match -/

lemma updateFirst_frame (p : Todo → Prop) [DecidablePred p] (f : Todo → Todo)
    (l : List Todo) :
    updateFirst p f l = l ∨
    ∃ pre t post, l = pre ++ t :: post ∧ (∀ u ∈ pre, ¬ p u) ∧ p t ∧
      updateFirst p f l = pre ++ f t :: post := by
  induction l with
  | nil => exact Or.inl rfl
  | cons t ts ih =>
    by_cases hp : p t
    · exact Or.inr ⟨[], t, ts, rfl, by simp, hp, by simp [updateFirst, hp]⟩
    · cases ih with
      | inl h => exact Or.inl (by simp [updateFirst, hp, h])
      | inr h =>
        obtain ⟨pre, u, post, hl, hpre, hu, hres⟩ := h
        refine Or.inr ⟨t :: pre, u, post, by simp [hl], ?_, hu,
          by simp [updateFirst, hp, hres]⟩
        intro v hv
        rcases List.mem_cons.mp hv with h1 | h2
        · subst h1; exact hp
        · exact hpre v h2

lemma toggle_eq_updateFirst (l : List Todo) (i : Int) :
    toggle l i = updateFirst (fun t => t.id = i ∧ t.deleted_at = none)
      (fun t => { t with completed := !t.completed }) l := by
  induction l with
  | nil => rfl
  | cons t ts ih =>
    by_cases h : t.id = i ∧ t.deleted_at = none <;>
      simp [toggle, updateFirst, h, ih]

lemma delete_eq_updateFirst (now : String) (l : List Todo) (i : Int) :
    delete now l i = updateFirst (fun t => t.id = i ∧ t.deleted_at = none)
      (fun t => { t with deleted_at := some now }) l := by
  induction l with
  | nil => rfl
  | cons t ts ih =>
    by_cases h : t.id = i ∧ t.deleted_at = none <;>
      simp [delete, updateFirst, h, ih]

lemma restore_eq_updateFirst (l : List Todo) (i : Int) :
    restore l i = updateFirst (fun t => t.id = i ∧ t.deleted_at ≠ none)
      (fun t => { t with deleted_at := none }) l := by
  induction l with
  | nil => rfl
  | cons t ts ih =>
    by_cases h : t.id = i ∧ t.deleted_at ≠ none <;>
      simp [restore, updateFirst, h, ih]

/-- C10: each of `toggle`, `delete`, `restore` either leaves the collection
unchanged or rewrites exactly the first record (in sequence order) satisfying
its id-and-state match, changing only the one relevant field of that record
and no other record — also on collections with duplicate ids. -/
theorem first_match_frame (now : String) (todos : List Todo) (i : Int) :
    (toggle todos i = todos ∨
      ∃ pre t post, todos = pre ++ t :: post ∧
        (∀ u ∈ pre, ¬(u.id = i ∧ u.deleted_at = none)) ∧
        t.id = i ∧ t.deleted_at = none ∧
        toggle todos i = pre ++ { t with completed := !t.completed } :: post) ∧
    (delete now todos i = todos ∨
      ∃ pre t post, todos = pre ++ t :: post ∧
        (∀ u ∈ pre, ¬(u.id = i ∧ u.deleted_at = none)) ∧
        t.id = i ∧ t.deleted_at = none ∧
        delete now todos i = pre ++ { t with deleted_at := some now } :: post) ∧
    (restore todos i = todos ∨
      ∃ pre t post, todos = pre ++ t :: post ∧
        (∀ u ∈ pre, ¬(u.id = i ∧ u.deleted_at ≠ none)) ∧
        t.id = i ∧ t.deleted_at ≠ none ∧
        restore todos i = pre ++ { t with deleted_at := none } :: post) := by
  refine ⟨?_, ?_, ?_⟩
  · rcases updateFirst_frame (fun t => t.id = i ∧ t.deleted_at = none)
      (fun t => { t with completed := !t.completed }) todos with h |
        ⟨pre, t, post, hl, hpre, hp, hres⟩
    · exact Or.inl (by rw [toggle_eq_updateFirst]; exact h)
    · exact Or.inr ⟨pre, t, post, hl, hpre, hp.1, hp.2,
        by rw [toggle_eq_updateFirst]; exact hres⟩
  · rcases updateFirst_frame (fun t => t.id = i ∧ t.deleted_at = none)
      (fun t => { t with deleted_at := some now }) todos with h |
        ⟨pre, t, post, hl, hpre, hp, hres⟩
    · exact Or.inl (by rw [delete_eq_updateFirst]; exact h)
    · exact Or.inr ⟨pre, t, post, hl, hpre, hp.1, hp.2,
        by rw [delete_eq_updateFirst]; exact hres⟩
  · rcases updateFirst_frame (fun t => t.id = i ∧ t.deleted_at ≠ none)
      (fun t => { t with deleted_at := none }) todos with h |
        ⟨pre, t, post, hl, hpre, hp, hres⟩
    · exact Or.inl (by rw [restore_eq_updateFirst]; exact h)
    · exact Or.inr ⟨pre, t, post, hl, hpre, hp.1, hp.2,
        by rw [restore_eq_updateFirst]; exact hres⟩

/-- Witness for `first_match_frame` on a duplicate-id collection: the first
active record with id 1 sits behind a soft-deleted record with the same id. -/
theorem first_match_frame_witness :
    (toggle [⟨1, "a", false, "T", some "D"⟩, ⟨1, "b", false, "T", none⟩] 1 =
        [⟨1, "a", false, "T", some "D"⟩, ⟨1, "b", false, "T", none⟩] ∨
      ∃ pre t post,
        ([⟨1, "a", false, "T", some "D"⟩, ⟨1, "b", false, "T", none⟩] :
            List Todo) = pre ++ t :: post ∧
        (∀ u ∈ pre, ¬(u.id = 1 ∧ u.deleted_at = none)) ∧
        t.id = 1 ∧ t.deleted_at = none ∧
        toggle [⟨1, "a", false, "T", some "D"⟩, ⟨1, "b", false, "T", none⟩] 1 =
          pre ++ { t with completed := !t.completed } :: post) ∧
    (delete "D2" [⟨1, "a", false, "T", some "D"⟩, ⟨1, "b", false, "T", none⟩] 1 =
        [⟨1, "a", false, "T", some "D"⟩, ⟨1, "b", false, "T", none⟩] ∨
      ∃ pre t post,
        ([⟨1, "a", false, "T", some "D"⟩, ⟨1, "b", false, "T", none⟩] :
            List Todo) = pre ++ t :: post ∧
        (∀ u ∈ pre, ¬(u.id = 1 ∧ u.deleted_at = none)) ∧
        t.id = 1 ∧ t.deleted_at = none ∧
        delete "D2" [⟨1, "a", false, "T", some "D"⟩,
            ⟨1, "b", false, "T", none⟩] 1 =
          pre ++ { t with deleted_at := some "D2" } :: post) ∧
    (restore [⟨1, "a", false, "T", some "D"⟩, ⟨1, "b", false, "T", none⟩] 1 =
        [⟨1, "a", false, "T", some "D"⟩, ⟨1, "b", false, "T", none⟩] ∨
      ∃ pre t post,
        ([⟨1, "a", false, "T", some "D"⟩, ⟨1, "b", false, "T", none⟩] :
            List Todo) = pre ++ t :: post ∧
        (∀ u ∈ pre, ¬(u.id = 1 ∧ u.deleted_at ≠ none)) ∧
        t.id = 1 ∧ t.deleted_at ≠ none ∧
        restore [⟨1, "a", false, "T", some "D"⟩, ⟨1, "b", false, "T", none⟩] 1 =
          pre ++ { t with deleted_at := none } :: post) :=
  first_match_frame "D2"
    [⟨1, "a", false, "T", some "D"⟩, ⟨1, "b", false, "T", none⟩] 1
